import Mathlib

/-
  Verification of the session-lifecycle service in this repository
  (src/main.py: HeyGenStreamingClient, the in-memory session registry,
  resolve_avatar_and_voice, and the three HTTP endpoints create_session,
  talk, stop; plus the duplicate client in src/heygen_interactive_avatar.py).

  The Python code is shallowly embedded: JSON bodies become the inductive
  type JVal, Python exceptions become explicit error values, the mutable
  `sessions` dict becomes an association list threaded through the
  endpoint functions, and each outbound HTTP call is modelled by a
  CallOutcome value supplied by the environment (the vendor).
-/

namespace AvatarService

set_option maxRecDepth 10000

/-- JSON values as decoded by requests.Response.json(); objects keep the
    field order of the wire format. -/
inductive JVal where
  | null
  | bool (b : Bool)
  | num (n : Int)
  | str (s : String)
  | arr (elems : List JVal)
  | obj (fields : List (String × JVal))

mutual

/-- Structural equality on JSON values (Python == on decoded bodies). -/
def JVal.beq : JVal → JVal → Bool
  | .null, .null => true
  | .bool a, .bool b => a == b
  | .num a, .num b => a == b
  | .str a, .str b => a == b
  | .arr as, .arr bs => JVal.beqList as bs
  | .obj as, .obj bs => JVal.beqFields as bs
  | _, _ => false

def JVal.beqList : List JVal → List JVal → Bool
  | [], [] => true
  | a :: as, b :: bs => JVal.beq a b && JVal.beqList as bs
  | _, _ => false

def JVal.beqFields : List (String × JVal) → List (String × JVal) → Bool
  | [], [] => true
  | (k1, v1) :: as, (k2, v2) :: bs => k1 == k2 && JVal.beq v1 v2 && JVal.beqFields as bs
  | _, _ => false

end

/-- Python truthiness of a decoded JSON value (`if not x`). -/
def JVal.truthy : JVal → Bool
  | .null => false
  | .bool b => b
  | .num n => n != 0
  | .str s => !s.isEmpty
  | .arr elems => !elems.isEmpty
  | .obj fields => !fields.isEmpty

/-- Python truthiness of an optional string (None and "" are falsy). -/
def optTruthy : Option String → Bool
  | none => false
  | some s => !s.isEmpty

/-- Python truthiness of an optional JSON value. -/
def optJTruthy : Option JVal → Bool
  | none => false
  | some v => v.truthy

/-- Python `a or b` on optional strings. -/
def pyOr (a b : Option String) : Option String :=
  if optTruthy a then a else b

/-- Python `a or b` on optional JSON values
    (`first.get("avatar_id") or first.get("id")`). -/
def pyOrJ (a b : Option JVal) : Option JVal :=
  if optJTruthy a then a else b

/-- Python `not text or not text.strip()`: the text is empty, or
    stripping whitespace from both ends leaves nothing, i.e. every
    character is whitespace. -/
def pyBlank (text : String) : Bool :=
  text.toList.isEmpty || text.toList.all Char.isWhitespace

/-- Python `v.get(k)`: succeeds only on a dict, else AttributeError. -/
def pyGet : JVal → String → Except String (Option JVal)
  | .obj fields, k => .ok ((fields.find? (fun f => f.1 == k)).map (fun f => f.2))
  | _, _ => .error "AttributeError: no attribute get"

/-- Python `v.get(k, dflt)`. -/
def pyGetD (v : JVal) (k : String) (dflt : JVal) : Except String JVal :=
  (pyGet v k).map (fun o => o.getD dflt)

/-- Python `v[k]` with a string key: KeyError when the key is missing,
    TypeError when v is not a dict. -/
def pyIndexKey : JVal → String → Except String JVal
  | .obj fields, k =>
    match fields.find? (fun f => f.1 == k) with
    | some f => .ok f.2
    | none => .error "KeyError"
  | _, _ => .error "TypeError: not subscriptable"

/-- Python `v[0]` (`avatars[0]`): first element of a list, first character
    of a string; IndexError / TypeError / KeyError otherwise. -/
def pyIndexZero : JVal → Except String JVal
  | .arr (x :: _) => .ok x
  | .arr [] => .error "IndexError"
  | .str s =>
    match s.toList with
    | [] => .error "IndexError"
    | c :: _ => .ok (.str (String.mk [c]))
  | .obj _ => .error "KeyError"
  | _ => .error "TypeError: not subscriptable"

/-- The wire-level outcome of one HTTP round trip that did reach the
    vendor: a status code with either a JSON-decodable body or raw text
    that r.json() rejects. -/
inductive RawResponse where
  | nonJson (status : Nat) (text : String)
  | json (status : Nat) (body : JVal)

/-- The outcome of attempting one HTTP call: requests.RequestException
    (DNS, timeout, refused connection) or a response. -/
inductive CallOutcome where
  | netFail (msg : String)
  | resp (r : RawResponse)

/-- The typed errors of src/main.py, one constructor per raise site.
    `quota` is class HeyGenQuotaError, `network` is class
    HeyGenNetworkError, and every other constructor is a plain
    HeyGenError distinguished by its message. In the spec's taxonomy
    (spec.md section 7): nonJsonResp, noToken and noAvatarId are
    ProtocolError; httpErr and newSessionFailed are BackendError;
    network is NetworkUnavailable; quota is QuotaExceeded; noAvatars is
    NotFound; emptyText, avatarRequired and sessionIdRequired are
    InvalidArgument (local precondition failures). -/
inductive HeyGenError where
  | nonJsonResp (status : Nat) (text : String)
  | quota
  | httpErr (status : Nat) (body : JVal)
  | network (msg : String)
  | noToken
  | newSessionFailed (body : JVal)
  | avatarRequired
  | sessionIdRequired
  | emptyText
  | noAvatars
  | noAvatarId

/-- requests.Response.ok: False exactly for status codes 400..599. -/
def respOk (status : Nat) : Bool :=
  !(decide (400 ≤ status) && decide (status < 600))

/-- Does the decoded body carry the vendor's quota sentinel
    (`isinstance(data, dict) and data.get("code") == 10008`)? -/
def isQuotaBody : JVal → Bool
  | .obj fields =>
    match fields.find? (fun f => f.1 == "code") with
    | some (_, JVal.num n) => n == 10008
    | _ => false
  | _ => false

/-- HeyGenStreamingClient._handle_response (src/main.py lines 66-85):
    non-JSON body raises HeyGenError with the truncated text; a 400
    status whose dict body has code 10008 raises HeyGenQuotaError; any
    other non-ok status raises HeyGenError with status and body; an ok
    status returns the decoded body. -/
def handle_response : RawResponse → Except HeyGenError JVal
  | .nonJson status text => .error (.nonJsonResp status (text.take 200))
  | .json status body =>
    if status == 400 && isQuotaBody body then .error .quota
    else if !(respOk status) then .error (.httpErr status body)
    else .ok body

/-- One guarded HTTP call as every client method performs it: a
    requests.RequestException is re-raised as HeyGenNetworkError,
    otherwise the response goes through _handle_response. -/
def transportCall (o : CallOutcome) : Except HeyGenError JVal :=
  match o with
  | .netFail msg => .error (.network ("HeyGen API unreachable: " ++ msg))
  | .resp r => handle_response r

/-- An error escaping a client method or endpoint body: a typed HeyGen
    error, or an untyped Python exception (AttributeError, KeyError,
    TypeError) that only the endpoint's `except Exception` catches. -/
inductive SvcError where
  | hg (e : HeyGenError)
  | py (msg : String)

/-- Lift a transport result into the service error type. -/
def liftHg : Except HeyGenError JVal → Except SvcError JVal
  | .ok v => .ok v
  | .error e => .error (.hg e)

/-- HeyGenStreamingClient.list_streaming_avatars (src/main.py 89-98):
    returns `data.get("data", [])`. -/
def list_streaming_avatars (o : CallOutcome) : Except SvcError JVal :=
  match transportCall o with
  | .error e => .error (.hg e)
  | .ok data =>
    match pyGetD data "data" (.arr []) with
    | .error m => .error (.py m)
    | .ok avatars => .ok avatars

/-- HeyGenStreamingClient.create_session_token (src/main.py 100-113):
    extracts `data.get("data", {}).get("token")` and raises when the
    token is missing or falsy. -/
def create_session_token (o : CallOutcome) : Except SvcError JVal :=
  match transportCall o with
  | .error e => .error (.hg e)
  | .ok data =>
    match pyGetD data "data" (.obj []) with
    | .error m => .error (.py m)
    | .ok inner =>
      match pyGet inner "token" with
      | .error m => .error (.py m)
      | .ok tokenOpt =>
        if optJTruthy tokenOpt then .ok (tokenOpt.getD .null)
        else .error (.hg .noToken)

/-- Is `data.get("code")` the integer success sentinel 100? -/
def isCode100 : Option JVal → Bool
  | some (.num n) => n == 100
  | _ => false

/-- HeyGenStreamingClient.new_session (src/main.py 115-149): requires a
    truthy avatar_id, posts the payload, checks the embedded code 100,
    and returns `data["data"]`. The voice_id only shapes the request
    payload, which the model does not track. -/
def new_session (avatar_id : JVal) (voice_id : Option String) (o : CallOutcome) :
    Except SvcError JVal :=
  let _ := voice_id
  if !avatar_id.truthy then .error (.hg .avatarRequired)
  else
    match transportCall o with
    | .error e => .error (.hg e)
    | .ok data =>
      match pyGet data "code" with
      | .error m => .error (.py m)
      | .ok codeOpt =>
        if !isCode100 codeOpt then .error (.hg (.newSessionFailed data))
        else
          match pyIndexKey data "data" with
          | .error m => .error (.py m)
          | .ok info => .ok info

/-- HeyGenStreamingClient.start_session (src/main.py 151-168). -/
def start_session (session_id : JVal) (o : CallOutcome) : Except SvcError JVal :=
  if !session_id.truthy then .error (.hg .sessionIdRequired)
  else liftHg (transportCall o)

/-- HeyGenStreamingClient.send_task (src/main.py 170-192): empty or
    whitespace-only text raises before the HTTP call. The second
    component counts the HTTP calls performed. -/
def send_task (text : String) (o : CallOutcome) : Except SvcError JVal × Nat :=
  if pyBlank text then (.error (.hg .emptyText), 0)
  else (liftHg (transportCall o), 1)

/-- HeyGenStreamingClient.stop_session (src/main.py 194-208). -/
def stop_session (o : CallOutcome) : Except SvcError JVal :=
  liftHg (transportCall o)

/-- The errors of the duplicate client in
    src/heygen_interactive_avatar.py: a requests.RequestException there
    is not wrapped at all, and there is no quota branch. -/
inductive DemoError where
  | requestException (msg : String)
  | nonJsonResp (status : Nat) (text : String)
  | httpErr (status : Nat) (body : JVal)

/-- HeyGenStreamingClient._handle_response of
    src/heygen_interactive_avatar.py (lines 78-85): no quota branch. -/
def demo_handle_response : RawResponse → Except DemoError JVal
  | .nonJson status text => .error (.nonJsonResp status (text.take 200))
  | .json status body =>
    if !(respOk status) then .error (.httpErr status body)
    else .ok body

/-- HeyGenStreamingClient.send_task of src/heygen_interactive_avatar.py
    (lines 155-184): no emptiness check on text; the HTTP POST is issued
    unconditionally. The second component counts HTTP calls. -/
def demo_send_task (text : String) (o : CallOutcome) : Except DemoError JVal × Nat :=
  let _ := text
  match o with
  | .netFail msg => (.error (.requestException msg), 1)
  | .resp r => (demo_handle_response r, 1)

/-- One row of LANG_MAP (src/main.py 224-237): the optional avatar and
    voice ids configured for a language. -/
structure LangEntry where
  avatar : Option String
  voice : Option String

/-- `LANG_MAP.get(lang)`: first entry for the language code. -/
def langLookup (langMap : List (String × LangEntry)) (lang : String) : Option LangEntry :=
  (langMap.find? (fun e => e.1 == lang)).map (fun e => e.2)

/-- resolve_avatar_and_voice (src/main.py 252-291), parameterised over
    the configuration read from the environment at module load:
    request override, else language entry `or` global default; when the
    avatar is still falsy, one fresh list_streaming_avatars call picks
    the first returned descriptor. The second component counts the
    listing calls performed. -/
def resolve_avatar_and_voice (langMap : List (String × LangEntry)) (defaultLang : String)
    (globalAvatar globalVoice : Option String) (reqAvatar reqVoice : Option String)
    (listO : CallOutcome) : Except SvcError (JVal × Option String) × Nat :=
  let entry := langLookup langMap defaultLang
  let langAv : Option String := entry.bind (fun e => e.avatar)
  let langVo : Option String := entry.bind (fun e => e.voice)
  let avatar0 : Option String := if optTruthy reqAvatar then reqAvatar else pyOr langAv globalAvatar
  let voice_id : Option String := if optTruthy reqVoice then reqVoice else pyOr langVo globalVoice
  if optTruthy avatar0 then (.ok (.str (avatar0.getD ""), voice_id), 0)
  else
    match list_streaming_avatars listO with
    | .error e => (.error e, 1)
    | .ok avatars =>
      if !avatars.truthy then (.error (.hg .noAvatars), 1)
      else
        match pyIndexZero avatars with
        | .error m => (.error (.py m), 1)
        | .ok first =>
          match pyGet first "avatar_id" with
          | .error m => (.error (.py m), 1)
          | .ok aOpt =>
            match pyGet first "id" with
            | .error m => (.error (.py m), 1)
            | .ok iOpt =>
              let avatarIdOpt := pyOrJ aOpt iOpt
              if optJTruthy avatarIdOpt then (.ok (avatarIdOpt.getD .null, voice_id), 1)
              else (.error (.hg .noAvatarId), 1)

/-- The in-memory session registry `sessions: Dict[str, str]`
    (src/main.py 249), as an association list from the stored
    session_id value to the stored token value. -/
def Reg : Type := List (JVal × JVal)

/-- `sessions.get(k)`. -/
def regGet (st : Reg) (k : JVal) : Option JVal :=
  (st.find? (fun kv => JVal.beq kv.1 k)).map (fun kv => kv.2)

/-- `sessions[k] = v`: overwrite or append. -/
def regPut : Reg → JVal → JVal → Reg
  | [], k, v => [(k, v)]
  | kv :: rest, k, v =>
    if JVal.beq kv.1 k then (k, v) :: rest else kv :: regPut rest k v

/-- `sessions.pop(k, None)`. -/
def regPop (st : Reg) (k : JVal) : Reg :=
  st.filter (fun kv => !(JVal.beq kv.1 k))

/-- Outward response of the talk and stop endpoints: a forwarded JSON
    body, or an HTTPException with status and detail string. -/
inductive SResult where
  | ok (body : JVal)
  | httpError (status : Nat) (detail : String)

/-- Outcome of one endpoint invocation: response, registry afterwards,
    and the number of vendor HTTP calls performed. -/
structure Step where
  result : SResult
  state : Reg
  calls : Nat

def quotaDetail : String := "HeyGen quota exhausted. Please top up your HeyGen credits."

def networkDetail : String := "Unable to reach HeyGen API (network/DNS issue)."

def backendDetail : String := "Error from HeyGen backend."

def internalDetail : String := "Internal server error"

/-- The except-chain of the talk endpoint (src/main.py 401-415):
    HeyGenQuotaError, then HeyGenNetworkError, then HeyGenError, then
    Exception. -/
def mapTalkError : SvcError → SResult
  | .hg .quota => .httpError 429 quotaDetail
  | .hg (.network _) => .httpError 503 networkDetail
  | .hg _ => .httpError 502 backendDetail
  | .py _ => .httpError 500 internalDetail

/-- The except-chain of the stop endpoint (src/main.py 428-437): no
    HeyGenQuotaError clause, so a quota error lands in the HeyGenError
    clause and maps to 502. -/
def mapStopError : SvcError → SResult
  | .hg (.network _) => .httpError 503 networkDetail
  | .hg _ => .httpError 502 backendDetail
  | .py _ => .httpError 500 internalDetail

/-- Outward response of the create_session endpoint: the three fields of
    CreateSessionResponse, or an HTTPException. -/
inductive CreateResult where
  | ok (session_id livekit_url access_token : JVal)
  | failed (status : Nat) (detail : String)

/-- The except-chain of the create_session endpoint (src/main.py
    364-381). -/
def mapCreateError : SvcError → CreateResult
  | .hg .quota => .failed 429 quotaDetail
  | .hg (.network _) => .failed 503 networkDetail
  | .hg _ => .failed 502 backendDetail
  | .py _ => .failed 500 internalDetail

/-- The talk endpoint (src/main.py 384-415): registry lookup first (404
    when absent or falsy), then the emptiness check on text (400), then
    send_task with the stored token; the registry is never modified. -/
def talk (st : Reg) (session_id text : String) (o : CallOutcome) : Step :=
  let tokenOpt := regGet st (.str session_id)
  if !(optJTruthy tokenOpt) then ⟨.httpError 404 "Unknown session_id", st, 0⟩
  else if pyBlank text then ⟨.httpError 400 "text is required", st, 0⟩
  else
    match send_task text o with
    | (.ok body, n) => ⟨.ok body, st, n⟩
    | (.error e, n) => ⟨mapTalkError e, st, n⟩

/-- The body returned by stop for an unknown session. -/
def alreadyClosedBody : JVal := .obj [("status", .str "already_closed")]

/-- The stop endpoint (src/main.py 418-439): unknown or falsy token
    returns already_closed without any vendor call; otherwise
    stop_session runs and the finally block pops the registry entry in
    every outcome. -/
def stop (st : Reg) (session_id : String) (o : CallOutcome) : Step :=
  let tokenOpt := regGet st (.str session_id)
  if !(optJTruthy tokenOpt) then ⟨.ok alreadyClosedBody, st, 0⟩
  else
    let st' := regPop st (.str session_id)
    match stop_session o with
    | .ok body => ⟨.ok body, st', 1⟩
    | .error e => ⟨mapStopError e, st', 1⟩

/-- The vendor-call outcomes available to one create_session request, in
    program order: the optional avatar listing, token minting, session
    open, session start. -/
structure CreateOracle where
  listO : CallOutcome
  tokenO : CallOutcome
  newO : CallOutcome
  startO : CallOutcome

/-- The create_session endpoint (src/main.py 336-381): resolution, token
    minting, streaming.new, extraction of session_id, streaming.start,
    then the registry insert, and only then the two remaining field
    extractions for the response (a KeyError there yields 500 with the
    insert already performed). -/
def create_session (langMap : List (String × LangEntry)) (defaultLang : String)
    (globalAvatar globalVoice reqAvatar reqVoice : Option String)
    (st : Reg) (o : CreateOracle) : CreateResult × Reg :=
  match (resolve_avatar_and_voice langMap defaultLang globalAvatar globalVoice
      reqAvatar reqVoice o.listO).1 with
  | .error e => (mapCreateError e, st)
  | .ok (avatar_id, voice_id) =>
    match create_session_token o.tokenO with
    | .error e => (mapCreateError e, st)
    | .ok token =>
      match new_session avatar_id voice_id o.newO with
      | .error e => (mapCreateError e, st)
      | .ok session_info =>
        match pyIndexKey session_info "session_id" with
        | .error m => (mapCreateError (.py m), st)
        | .ok session_id =>
          match start_session session_id o.startO with
          | .error e => (mapCreateError e, st)
          | .ok _ =>
            let st' := regPut st session_id token
            match pyIndexKey session_info "url" with
            | .error m => (mapCreateError (.py m), st')
            | .ok url =>
              match pyIndexKey session_info "access_token" with
              | .error m => (mapCreateError (.py m), st')
              | .ok access => (.ok session_id url access, st')

/-- Spec-side precedence (spec.md section 4.4): the first non-empty
    value of a candidate list, written from the spec's words for the
    refinement comparison with resolve_avatar_and_voice. -/
def specFirst : List (Option String) → Option String
  | [] => none
  | x :: rest => if optTruthy x then x else specFirst rest

/-- Classification of service errors as the spec's InvalidArgument kind
    (spec.md section 7: caller-supplied data fails a local
    precondition). -/
def SvcError.isInvalidArgument : SvcError → Bool
  | .hg .emptyText => true
  | .hg .avatarRequired => true
  | .hg .sessionIdRequired => true
  | _ => false

/-- Helper: looking a key up after popping it finds nothing. -/
theorem regGet_regPop (st : Reg) (k : JVal) : regGet (regPop st k) k = none := by
  induction st with
  | nil => rfl
  | cons kv rest ih =>
    by_cases h : JVal.beq kv.1 k
    · simp [regPop, regGet, List.filter_cons, h]
    · simp [regPop, regGet, List.filter_cons, h, List.find?]

/-- Helper: a truthy optional string yields a truthy JSON string. -/
theorem optTruthy_getD_truthy (a : Option String) (h : optTruthy a = true) :
    (JVal.str (a.getD "")).truthy = true := by
  cases a with
  | none => simp [optTruthy] at h
  | some s => simpa [optTruthy, JVal.truthy] using h

/-- Helper: a truthy optional JSON value stays truthy after getD. -/
theorem optJTruthy_getD_truthy (a : Option JVal) (h : optJTruthy a = true) :
    (a.getD .null).truthy = true := by
  cases a with
  | none => simp [optJTruthy] at h
  | some v => simpa [optJTruthy] using h

/-- Helper: when the spec-side precedence over three candidates yields a
    value, the code's nested conditional yields the same value. -/
theorem specFirst3_some (a b c : Option String) (s : String)
    (h : specFirst [a, b, c] = some s) :
    (if optTruthy a then a else pyOr b c) = some s ∧ optTruthy (some s) = true := by
  by_cases ha : optTruthy a = true
  · simp [specFirst, ha] at h
    subst h
    exact ⟨by simp [ha], ha⟩
  · by_cases hb : optTruthy b = true
    · simp [specFirst, ha, hb] at h
      subst h
      exact ⟨by simp [ha, hb, pyOr], hb⟩
    · by_cases hc : optTruthy c = true
      · simp [specFirst, ha, hb, hc] at h
        subst h
        exact ⟨by simp [ha, hb, hc, pyOr], hc⟩
      · simp [specFirst, ha, hb, hc] at h

/-- Helper: when the spec-side precedence over three candidates is
    empty, the code's nested conditional is falsy. -/
theorem specFirst3_none (a b c : Option String)
    (h : specFirst [a, b, c] = none) :
    optTruthy (if optTruthy a then a else pyOr b c) = false := by
  by_cases ha : optTruthy a = true
  · simp [specFirst, ha] at h
    rw [h] at ha
    simp [optTruthy] at ha
  · by_cases hb : optTruthy b = true
    · simp [specFirst, ha, hb] at h
      rw [h] at hb
      simp [optTruthy] at hb
    · by_cases hc : optTruthy c = true
      · simp [specFirst, ha, hb, hc] at h
        rw [h] at hc
        simp [optTruthy] at hc
      · simp [pyOr, ha, hb, hc]

/-- Helper: a successful resolution always carries a truthy avatar. -/
theorem resolve_ok_truthy (lm : List (String × LangEntry)) (dl : String)
    (ga gv ra rv : Option String) (listO : CallOutcome) (av : JVal) (vo : Option String)
    (h : (resolve_avatar_and_voice lm dl ga gv ra rv listO).1 = .ok (av, vo)) :
    av.truthy = true := by
  unfold resolve_avatar_and_voice at h
  by_cases h0 : optTruthy (if optTruthy ra then ra
      else pyOr ((langLookup lm dl).bind fun e => e.avatar) ga) = true
  · rw [if_pos h0] at h
    simp only [Except.ok.injEq, Prod.mk.injEq] at h
    rw [← h.1]
    exact optTruthy_getD_truthy _ h0
  · rw [if_neg h0] at h
    rcases hl : list_streaming_avatars listO with e | avs
    · simp [hl] at h
    · rw [hl] at h
      by_cases htr : avs.truthy
      · simp only [htr, Bool.not_true, Bool.false_eq_true, if_false] at h
        rcases hz : pyIndexZero avs with m | first
        · simp [hz] at h
        · rw [hz] at h
          dsimp only at h
          rcases hga : pyGet first "avatar_id" with m | aOpt
          · simp [hga] at h
          · rw [hga] at h
            dsimp only at h
            rcases hgi : pyGet first "id" with m | iOpt
            · simp [hgi] at h
            · rw [hgi] at h
              dsimp only at h
              by_cases hj : optJTruthy (pyOrJ aOpt iOpt) = true
              · rw [if_pos hj] at h
                simp only [Except.ok.injEq, Prod.mk.injEq] at h
                rw [← h.1]
                exact optJTruthy_getD_truthy _ hj
              · rw [if_neg hj] at h
                simp at h
      · simp only [Bool.not_eq_true] at htr
        simp [htr] at h

/-- Helper: the talk endpoint's except-chain never produces status 400. -/
theorem mapTalkError_ne_400 (e : SvcError) (d : String) :
    mapTalkError e ≠ .httpError 400 d := by
  rcases e with e | m
  · cases e <;> simp [mapTalkError]
  · simp [mapTalkError]

/-- C2: for every session_id present in the registry (with the truthy
    token every successful create stores), the stop endpoint removes the
    registry entry in every outcome of the vendor stop call: success,
    backend error, or network error; a later get finds nothing.
    (src/main.py 418-439: sessions.pop in the finally block.) -/
theorem stop_always_clears_registry (st : Reg) (sid : String) (tok : JVal)
    (o : CallOutcome) (h1 : regGet st (.str sid) = some tok) (h2 : tok.truthy = true) :
    regGet ((stop st sid o).state) (.str sid) = none := by
  unfold stop
  rw [h1]
  simp only [optJTruthy, h2, Bool.not_true, Bool.false_eq_true, if_false]
  rcases hs : stop_session o with e | b <;> simp [hs, regGet_regPop]

/-- Witness for C2 at a concrete registry and a timed-out stop call. -/
theorem stop_always_clears_registry_witness :
    regGet [(.str "s1", .str "t1")] (.str "s1") = some (.str "t1") ∧
    regGet ((stop [(.str "s1", .str "t1")] "s1" (.netFail "boom")).state) (.str "s1") = none :=
  ⟨rfl, stop_always_clears_registry [(.str "s1", .str "t1")] "s1" (.str "t1") (.netFail "boom") rfl rfl⟩

/-- C3 (amended): the service client's send_task (src/main.py 170-192)
    fails on empty or whitespace-only text with the local empty-text
    error (the spec's InvalidArgument kind) and performs zero HTTP
    calls; the duplicate demo client's send_task
    (src/heygen_interactive_avatar.py 155-184) has no such check and
    performs its HTTP call even then. -/
theorem send_task_blank_local_failure (text : String) (o o2 : CallOutcome)
    (h : pyBlank text = true) :
    send_task text o = (.error (.hg .emptyText), 0) ∧
    (SvcError.hg .emptyText).isInvalidArgument = true ∧
    (demo_send_task text o2).2 = 1 := by
    refine ⟨by simp [send_task, h], rfl, ?_⟩
    cases o2 <;> rfl

/-- Witness for C3's amended theorem on a whitespace-only text. -/
theorem send_task_blank_local_failure_witness :
    pyBlank " " = true ∧
    (send_task " " (.netFail "x") = (.error (.hg .emptyText), 0) ∧
      (SvcError.hg .emptyText).isInvalidArgument = true ∧
      (demo_send_task " " (.resp (.json 200 .null))).2 = 1) :=
  ⟨rfl, send_task_blank_local_failure " " (.netFail "x") (.resp (.json 200 .null)) rfl⟩

/-- Counterexample for C3 as stated: the demo client's send_task, one of
    the two implementations the claim cites, performs one (not zero)
    HTTP calls on empty text and does not fail locally. -/
theorem demo_send_task_blank_counterexample :
    demo_send_task "" (.resp (.json 200 .null)) = (.ok .null, 1) ∧
    (demo_send_task "" (.resp (.json 200 .null))).2 ≠ 0 :=
  ⟨rfl, by decide⟩

/-- C4: a session_id never stored by a successful create is absent from
    the registry; talk answers 404 Unknown session_id and stop answers
    already_closed, each with zero vendor calls and an unchanged
    registry. (src/main.py 384-392 and 418-423.) -/
theorem unknown_session_rejected_locally (st : Reg) (sid text : String)
    (o o2 : CallOutcome) (h : regGet st (.str sid) = none) :
    talk st sid text o = ⟨.httpError 404 "Unknown session_id", st, 0⟩ ∧
    stop st sid o2 = ⟨.ok alreadyClosedBody, st, 0⟩ := by
  constructor <;> simp [talk, stop, h, optJTruthy]

/-- Witness for C4 on the empty registry. -/
theorem unknown_session_rejected_locally_witness :
    regGet [] (.str "nope") = none ∧
    (talk [] "nope" "hello" (.netFail "x") = ⟨.httpError 404 "Unknown session_id", [], 0⟩ ∧
      stop [] "nope" (.netFail "y") = ⟨.ok alreadyClosedBody, [], 0⟩) :=
  ⟨rfl, unknown_session_rejected_locally [] "nope" "hello" (.netFail "x") (.netFail "y") rfl⟩

/-- C6 (amended): the transport layer classifies each outcome into
    exactly one error: non-JSON body gives the protocol error with
    status and text truncated to 200 characters; a JSON response is a
    quota error exactly when the status is 400 and the dict body carries
    code 10008; otherwise statuses 400-599 give the backend error with
    status and body, and every other status (2xx, 3xx, or 600 and
    above) is returned without error; a connection failure gives the
    network error. Quota detection applies only at status 400, not at
    every non-2xx status. -/
theorem transport_layer_classification (o : CallOutcome) :
    (∀ m, o = .netFail m →
      transportCall o = .error (.network ("HeyGen API unreachable: " ++ m))) ∧
    (∀ status text, o = .resp (.nonJson status text) →
      transportCall o = .error (.nonJsonResp status (text.take 200))) ∧
    (∀ status body, o = .resp (.json status body) →
      ((status = 400 ∧ isQuotaBody body = true) → transportCall o = .error .quota) ∧
      (¬(status = 400 ∧ isQuotaBody body = true) → 400 ≤ status → status < 600 →
        transportCall o = .error (.httpErr status body)) ∧
      (¬(status = 400 ∧ isQuotaBody body = true) → (status < 400 ∨ 600 ≤ status) →
        transportCall o = .ok body)) := by
  refine ⟨?_, ?_, ?_⟩
  · rintro m rfl
    rfl
  · rintro s t rfl
    rfl
  · rintro s b rfl
    have hq : ∀ hqc : ¬(s = 400 ∧ isQuotaBody b = true), (s == 400 && isQuotaBody b) = false := by
      intro hqc
      rcases eq_or_ne s 400 with h | h
      · subst h
        have hb : isQuotaBody b = false := by
          by_contra hb
          exact hqc ⟨rfl, by simpa using hb⟩
        simp [hb]
      · simp [h]
    refine ⟨?_, ?_, ?_⟩
    · rintro ⟨h1, h2⟩
      subst h1
      simp [transportCall, handle_response, h2]
    · intro hqc h1 h2
      simp [transportCall, handle_response, hq hqc, respOk, h1, h2]
    · intro hqc hrange
      rcases hrange with h | h
      · simp [transportCall, handle_response, hq hqc, respOk, Nat.not_le.mpr h]
      · simp [transportCall, handle_response, hq hqc, respOk, Nat.not_lt.mpr h]

/-- Witness for C6's amended classification at concrete responses. -/
theorem transport_layer_classification_witness :
    transportCall (.netFail "dns") = .error (.network "HeyGen API unreachable: dns") ∧
    transportCall (.resp (.json 400 (.obj [("code", .num 10008)]))) = .error .quota ∧
    transportCall (.resp (.json 500 (.str "oops"))) = .error (.httpErr 500 (.str "oops")) ∧
    transportCall (.resp (.json 200 (.obj []))) = .ok (.obj []) ∧
    transportCall (.resp (.nonJson 502 "<html>")) = .error (.nonJsonResp 502 "<html>") :=
  ⟨(transport_layer_classification (.netFail "dns")).1 "dns" rfl,
   ((transport_layer_classification (.resp (.json 400 (.obj [("code", .num 10008)])))).2.2
      400 (.obj [("code", .num 10008)]) rfl).1 ⟨rfl, rfl⟩,
   ((transport_layer_classification (.resp (.json 500 (.str "oops")))).2.2
      500 (.str "oops") rfl).2.1 (by simp) (by decide) (by decide),
   ((transport_layer_classification (.resp (.json 200 (.obj [])))).2.2
      200 (.obj []) rfl).2.2 (by simp) (Or.inl (by decide)),
   (transport_layer_classification (.resp (.nonJson 502 "<html>"))).2.1 502 "<html>" rfl⟩

/-- Counterexample for C6 as stated: a 402 response whose body carries
    the quota code 10008 is classified as a backend error, not as
    QuotaExceeded; quota detection is tied to status 400. -/
theorem quota_detection_counterexample :
    transportCall (.resp (.json 402 (.obj [("code", .num 10008)]))) =
      .error (.httpErr 402 (.obj [("code", .num 10008)])) ∧
    transportCall (.resp (.json 402 (.obj [("code", .num 10008)]))) ≠ .error .quota := by
  constructor
  · rfl
  · intro hcontra
    have h1 : transportCall (.resp (.json 402 (.obj [("code", .num 10008)]))) =
        .error (.httpErr 402 (.obj [("code", .num 10008)])) := rfl
    rw [h1] at hcontra
    exact absurd hcontra (by simp)

/-- C10: in the talk endpoint the registry check precedes the emptiness
    check: an absent session_id yields 404 whatever the text, and the
    400 text response can only arise when the session_id is present with
    a truthy token. (src/main.py 384-392.) -/
theorem talk_checks_session_before_text (st : Reg) (sid text : String) (o : CallOutcome) :
    (regGet st (.str sid) = none →
      talk st sid text o = ⟨.httpError 404 "Unknown session_id", st, 0⟩) ∧
    (∀ d, (talk st sid text o).result = .httpError 400 d →
      ∃ tok, regGet st (.str sid) = some tok ∧ tok.truthy = true) := by
  constructor
  · intro h
    simp [talk, h, optJTruthy]
  · intro d h
    unfold talk at h
    by_cases h0 : optJTruthy (regGet st (.str sid)) = true
    · rcases hg : regGet st (.str sid) with _ | tok
      · rw [hg] at h0
        simp [optJTruthy] at h0
      · refine ⟨tok, rfl, ?_⟩
        rw [hg] at h0
        simpa [optJTruthy] using h0
    · rw [if_pos (by simpa using h0)] at h
      simp at h

/-- Witness for C10: blank text with an unknown session still gets 404,
    and a 400 text response pinpoints a present session. -/
theorem talk_checks_session_before_text_witness :
    (talk [] "s9" "" (.netFail "x") = ⟨.httpError 404 "Unknown session_id", [], 0⟩) ∧
    (∃ tok, regGet [(.str "s1", .str "t1")] (.str "s1") = some tok ∧ tok.truthy = true) :=
  ⟨(talk_checks_session_before_text [] "s9" "" (.netFail "x")).1 rfl,
   (talk_checks_session_before_text [(.str "s1", .str "t1")] "s1" "" (.netFail "x")).2
     "text is required" rfl⟩

/-- Helper: a successful resolution's voice is exactly the code's
    request-override / language-entry / global-default chain. -/
theorem resolve_ok_voice (lm : List (String × LangEntry)) (dl : String)
    (ga gv ra rv : Option String) (listO : CallOutcome) (av : JVal) (vo : Option String)
    (h : (resolve_avatar_and_voice lm dl ga gv ra rv listO).1 = .ok (av, vo)) :
    vo = (if optTruthy rv then rv else pyOr ((langLookup lm dl).bind fun e => e.voice) gv) := by
  unfold resolve_avatar_and_voice at h
  by_cases h0 : optTruthy (if optTruthy ra then ra
      else pyOr ((langLookup lm dl).bind fun e => e.avatar) ga) = true
  · rw [if_pos h0] at h
    simp only [Except.ok.injEq, Prod.mk.injEq] at h
    exact h.2.symm
  · rw [if_neg h0] at h
    rcases hl : list_streaming_avatars listO with e | avs
    · simp [hl] at h
    · rw [hl] at h
      by_cases htr : avs.truthy
      · simp only [htr, Bool.not_true, Bool.false_eq_true, if_false] at h
        rcases hz : pyIndexZero avs with m | first
        · simp [hz] at h
        · rw [hz] at h
          dsimp only at h
          rcases hga : pyGet first "avatar_id" with m | aOpt
          · simp [hga] at h
          · rw [hga] at h
            dsimp only at h
            rcases hgi : pyGet first "id" with m | iOpt
            · simp [hgi] at h
            · rw [hgi] at h
              dsimp only at h
              by_cases hj : optJTruthy (pyOrJ aOpt iOpt) = true
              · rw [if_pos hj] at h
                simp only [Except.ok.injEq, Prod.mk.injEq] at h
                exact h.2.symm
              · rw [if_neg hj] at h
                simp at h
      · simp only [Bool.not_eq_true] at htr
        simp [htr] at h

/-- Helper: the transport layer only raises network, protocol, quota or
    backend errors, never an InvalidArgument-kind one. -/
theorem transportCall_error_not_invalid (o : CallOutcome) (e : HeyGenError)
    (h : transportCall o = .error e) : (SvcError.hg e).isInvalidArgument = false := by
  cases o with
  | netFail m =>
    simp [transportCall] at h
    rw [← h]
    rfl
  | resp r =>
    cases r with
    | nonJson status text =>
      simp [transportCall, handle_response] at h
      rw [← h]
      rfl
    | json status body =>
      unfold transportCall handle_response at h
      dsimp only at h
      by_cases h1 : (status == 400 && isQuotaBody body) = true
      · rw [if_pos h1] at h
        simp at h
        rw [← h]
        rfl
      · rw [if_neg h1] at h
        by_cases h2 : respOk status
        · simp [h2] at h
        · simp only [h2, Bool.not_false, if_true] at h
          simp at h
          rw [← h]
          rfl

/-- Helper: resolution can fail with transport errors, Python-level
    errors, noAvatars or noAvatarId, but never with an
    InvalidArgument-kind error. -/
theorem resolve_error_not_invalid (lm : List (String × LangEntry)) (dl : String)
    (ga gv ra rv : Option String) (listO : CallOutcome) (e : SvcError)
    (h : (resolve_avatar_and_voice lm dl ga gv ra rv listO).1 = .error e) :
    e.isInvalidArgument = false := by
  unfold resolve_avatar_and_voice at h
  by_cases h0 : optTruthy (if optTruthy ra then ra
      else pyOr ((langLookup lm dl).bind fun e => e.avatar) ga) = true
  · rw [if_pos h0] at h
    simp at h
  · rw [if_neg h0] at h
    rcases hl : list_streaming_avatars listO with el | avs
    · rw [hl] at h
      dsimp only at h
      simp only [Except.error.injEq] at h
      subst h
      unfold list_streaming_avatars at hl
      rcases ht : transportCall listO with et | data
      · rw [ht] at hl
        simp only [Except.error.injEq] at hl
        subst hl
        exact transportCall_error_not_invalid listO et ht
      · rw [ht] at hl
        dsimp only at hl
        rcases hd : pyGetD data "data" (.arr []) with m | avatars
        · rw [hd] at hl
          simp only [Except.error.injEq] at hl
          subst hl
          rfl
        · rw [hd] at hl
          simp at hl
    · rw [hl] at h
      by_cases htr : avs.truthy
      · simp only [htr, Bool.not_true, Bool.false_eq_true, if_false] at h
        rcases hz : pyIndexZero avs with m | first
        · rw [hz] at h
          dsimp only at h
          simp only [Except.error.injEq] at h
          subst h
          rfl
        · rw [hz] at h
          dsimp only at h
          rcases hga : pyGet first "avatar_id" with m | aOpt
          · rw [hga] at h
            dsimp only at h
            simp only [Except.error.injEq] at h
            subst h
            rfl
          · rw [hga] at h
            dsimp only at h
            rcases hgi : pyGet first "id" with m | iOpt
            · rw [hgi] at h
              dsimp only at h
              simp only [Except.error.injEq] at h
              subst h
              rfl
            · rw [hgi] at h
              dsimp only at h
              by_cases hj : optJTruthy (pyOrJ aOpt iOpt) = true
              · rw [if_pos hj] at h
                simp at h
              · rw [if_neg hj] at h
                simp only [Except.error.injEq] at h
                subst h
                rfl
      · simp only [Bool.not_eq_true] at htr
        simp only [htr, Bool.not_false, if_true] at h
        simp only [Except.error.injEq] at h
        subst h
        rfl


/-- C7: for an active language code not present in the configured
    table, resolution with no per-request overrides falls back to the
    global default avatar (and the global voice); when the global
    default is also empty it performs one fresh listing call and
    returns the first returned avatar's id (the `avatar_id` field of
    the first element, or its `id` field when that is falsy), failing
    with the no-avatars error when the list is empty; and it never
    raises an InvalidArgument-kind error. (src/main.py 252-291.) -/
theorem resolve_unconfigured_language (lm : List (String × LangEntry)) (dl : String)
    (ga gv : Option String) (listO : CallOutcome)
    (hlang : langLookup lm dl = none) :
    (optTruthy ga = true →
      resolve_avatar_and_voice lm dl ga gv none none listO = (.ok (.str (ga.getD ""), gv), 0)) ∧
    (optTruthy ga = false →
      (resolve_avatar_and_voice lm dl ga gv none none listO).2 = 1 ∧
      (list_streaming_avatars listO = .ok (.arr []) →
        (resolve_avatar_and_voice lm dl ga gv none none listO).1 = .error (.hg .noAvatars))) ∧
    (∀ e, (resolve_avatar_and_voice lm dl ga gv none none listO).1 = .error e →
      e.isInvalidArgument = false) ∧
    (optTruthy ga = false →
      ∀ x xs aOpt iOpt,
        list_streaming_avatars listO = .ok (.arr (x :: xs)) →
        pyGet x "avatar_id" = .ok aOpt → pyGet x "id" = .ok iOpt →
        (optJTruthy (pyOrJ aOpt iOpt) = true →
          (resolve_avatar_and_voice lm dl ga gv none none listO).1 =
            .ok ((pyOrJ aOpt iOpt).getD .null, gv)) ∧
        (optJTruthy (pyOrJ aOpt iOpt) = false →
          (resolve_avatar_and_voice lm dl ga gv none none listO).1 =
            .error (.hg .noAvatarId))) := by
  have hcand : ∀ c : Option String,
      (if optTruthy (none : Option String) then (none : Option String)
        else pyOr ((langLookup lm dl).bind fun e => e.avatar) c) = c := by
    intro c
    rw [hlang]
    simp [optTruthy, pyOr]
  have hcandv : ∀ c : Option String,
      (if optTruthy (none : Option String) then (none : Option String)
        else pyOr ((langLookup lm dl).bind fun e => e.voice) c) = c := by
    intro c
    rw [hlang]
    simp [optTruthy, pyOr]
  refine ⟨?_, ?_, ?_, ?_⟩
  · intro hga
    unfold resolve_avatar_and_voice
    dsimp only
    rw [hcand ga, hcandv gv, if_pos hga]
  · intro hga
    have h0' : ¬ optTruthy (if optTruthy (none : Option String) then none
        else pyOr ((langLookup lm dl).bind fun e => e.avatar) ga) = true := by
      rw [hcand ga, hga]
      simp
    constructor
    · unfold resolve_avatar_and_voice
      rw [if_neg h0']
      rcases hl : list_streaming_avatars listO with el | avs
      · rfl
      · dsimp only
        by_cases htr : avs.truthy
        · simp only [htr, Bool.not_true, Bool.false_eq_true, if_false]
          rcases hz : pyIndexZero avs with m | first
          · rfl
          · dsimp only
            rcases hga2 : pyGet first "avatar_id" with m | aOpt
            · rfl
            · dsimp only
              rcases hgi : pyGet first "id" with m | iOpt
              · rfl
              · dsimp only
                by_cases hj : optJTruthy (pyOrJ aOpt iOpt) = true
                · rw [if_pos hj]
                · rw [if_neg hj]
        · simp only [Bool.not_eq_true] at htr
          simp [htr]
    · intro hE
      unfold resolve_avatar_and_voice
      rw [if_neg h0', hE]
      rfl
  · intro e he
    exact resolve_error_not_invalid lm dl ga gv none none listO e he
  · intro hga x xs aOpt iOpt hL hga2 hgi
    have h0' : ¬ optTruthy (if optTruthy (none : Option String) then none
        else pyOr ((langLookup lm dl).bind fun e => e.avatar) ga) = true := by
      rw [hcand ga, hga]
      simp
    constructor
    · intro hj
      unfold resolve_avatar_and_voice
      rw [if_neg h0', hL]
      simp [pyIndexZero, JVal.truthy, hga2, hgi, hj, hcandv gv]
    · intro hj
      unfold resolve_avatar_and_voice
      rw [if_neg h0', hL]
      simp [pyIndexZero, JVal.truthy, hga2, hgi, hj]

/-- Witness for C7 with an unconfigured language "fr". -/
theorem resolve_unconfigured_language_witness :
    langLookup [] "fr" = none ∧
    (resolve_avatar_and_voice [] "fr" (some "g1") none none none (.netFail "x") =
      (.ok (.str "g1", none), 0)) ∧
    ((resolve_avatar_and_voice [] "fr" none none none none
        (.resp (.json 200 (.obj [("data", .arr [])])))).1 = .error (.hg .noAvatars)) ∧
    ((resolve_avatar_and_voice [] "fr" none none none none
        (.resp (.json 200 (.obj [("data",
          .arr [.obj [("avatar_id", .str "a0")], .obj [("avatar_id", .str "a1")]])])))).1 =
      .ok (.str "a0", none)) :=
  ⟨rfl,
   (resolve_unconfigured_language [] "fr" (some "g1") none (.netFail "x") rfl).1 rfl,
   ((resolve_unconfigured_language [] "fr" none none
       (.resp (.json 200 (.obj [("data", .arr [])]))) rfl).2.1 rfl).2 rfl,
   ((resolve_unconfigured_language [] "fr" none none
       (.resp (.json 200 (.obj [("data",
         .arr [.obj [("avatar_id", .str "a0")], .obj [("avatar_id", .str "a1")]])]))) rfl).2.2.2
     rfl (.obj [("avatar_id", .str "a0")]) [.obj [("avatar_id", .str "a1")]]
     (some (.str "a0")) none rfl rfl rfl).1 rfl⟩

/-- C5: when the vendor answers the open-session call
    (streaming.new) with the quota-exhaustion sentinel (status 400,
    code 10008), create_session returns the 429 response with the fixed
    quota detail and the registry is exactly what it was before the
    attempt. (src/main.py 336-381.) -/
theorem create_quota_no_registry_entry (lm : List (String × LangEntry)) (dl : String)
    (ga gv reqAvatar reqVoice : Option String) (st : Reg) (o : CreateOracle)
    (hres : ∃ av vo, (resolve_avatar_and_voice lm dl ga gv reqAvatar reqVoice o.listO).1 =
      Except.ok (av, vo))
    (htok : ∃ t, create_session_token o.tokenO = .ok t)
    (hquota : transportCall o.newO = .error .quota) :
    create_session lm dl ga gv reqAvatar reqVoice st o = (.failed 429 quotaDetail, st) := by
  obtain ⟨av, vo, hres⟩ := hres
  obtain ⟨t, htok⟩ := htok
  have htr := resolve_ok_truthy lm dl ga gv reqAvatar reqVoice o.listO av vo hres
  unfold create_session
  rw [hres]
  dsimp only
  rw [htok]
  dsimp only
  unfold new_session
  simp only [htr, Bool.not_true, Bool.false_eq_true, if_false]
  rw [hquota]
  rfl

/-- Witness for C5 on the empty registry with a concrete quota reply. -/
theorem create_quota_no_registry_entry_witness :
    create_session [] "en" (some "g1") none none none []
      ⟨.netFail "x", .resp (.json 200 (.obj [("data", .obj [("token", .str "tok1")])])),
       .resp (.json 400 (.obj [("code", .num 10008)])), .netFail "y"⟩ =
      (.failed 429 quotaDetail, []) :=
  create_quota_no_registry_entry [] "en" (some "g1") none none none []
    ⟨.netFail "x", .resp (.json 200 (.obj [("data", .obj [("token", .str "tok1")])])),
     .resp (.json 400 (.obj [("code", .num 10008)])), .netFail "y"⟩
    ⟨.str "g1", none, rfl⟩ ⟨.str "tok1", rfl⟩ rfl
/-- C1: resolution picks avatar and voice independently by the first
    non-empty value among request override, language-table entry and
    global default; when all three avatar candidates are empty it
    performs exactly one fresh list_avatars call, taking the first
    element of the returned list and failing with the no-avatars error
    (the spec's NotFound kind) when that list is empty; every normal
    return carries a truthy (non-empty) avatar id.
    (src/main.py 252-291.) -/
theorem resolve_follows_precedence (lm : List (String × LangEntry)) (dl : String)
    (ga gv ra rv : Option String) (listO : CallOutcome) :
    (∀ s : String,
      specFirst [ra, (langLookup lm dl).bind (fun e => e.avatar), ga] = some s →
      resolve_avatar_and_voice lm dl ga gv ra rv listO =
        (.ok (.str s, if optTruthy rv then rv
            else pyOr ((langLookup lm dl).bind (fun e => e.voice)) gv), 0)) ∧
    (∀ av vo, (resolve_avatar_and_voice lm dl ga gv ra rv listO).1 = .ok (av, vo) →
      av.truthy = true ∧
      (∀ s : String, specFirst [rv, (langLookup lm dl).bind (fun e => e.voice), gv] = some s →
        vo = some s) ∧
      (specFirst [rv, (langLookup lm dl).bind (fun e => e.voice), gv] = none →
        optTruthy vo = false)) ∧
    (specFirst [ra, (langLookup lm dl).bind (fun e => e.avatar), ga] = none →
      (resolve_avatar_and_voice lm dl ga gv ra rv listO).2 = 1 ∧
      (list_streaming_avatars listO = .ok (.arr []) →
        (resolve_avatar_and_voice lm dl ga gv ra rv listO).1 = .error (.hg .noAvatars)) ∧
      (∀ x xs aOpt iOpt,
        list_streaming_avatars listO = .ok (.arr (x :: xs)) →
        pyGet x "avatar_id" = .ok aOpt → pyGet x "id" = .ok iOpt →
        (optJTruthy (pyOrJ aOpt iOpt) = true →
          (resolve_avatar_and_voice lm dl ga gv ra rv listO).1 =
            .ok ((pyOrJ aOpt iOpt).getD .null,
                 if optTruthy rv then rv
                 else pyOr ((langLookup lm dl).bind (fun e => e.voice)) gv)) ∧
        (optJTruthy (pyOrJ aOpt iOpt) = false →
          (resolve_avatar_and_voice lm dl ga gv ra rv listO).1 = .error (.hg .noAvatarId)))) := by
  refine ⟨?_, ?_, ?_⟩
  · intro s hs
    obtain ⟨hif, hst⟩ := specFirst3_some _ _ _ _ hs
    unfold resolve_avatar_and_voice
    dsimp only
    rw [hif]
    simp [hst]
  · intro av vo h
    refine ⟨resolve_ok_truthy lm dl ga gv ra rv listO av vo h, ?_, ?_⟩
    · intro s hs
      obtain ⟨hif, _⟩ := specFirst3_some _ _ _ _ hs
      rw [resolve_ok_voice lm dl ga gv ra rv listO av vo h]
      exact hif
    · intro hs
      have hn := specFirst3_none _ _ _ hs
      rw [resolve_ok_voice lm dl ga gv ra rv listO av vo h]
      exact hn
  · intro hs
    have h0 := specFirst3_none _ _ _ hs
    have h0' : ¬ optTruthy (if optTruthy ra then ra
        else pyOr ((langLookup lm dl).bind fun e => e.avatar) ga) = true := by
      simp [h0]
    refine ⟨?_, ?_, ?_⟩
    · unfold resolve_avatar_and_voice
      rw [if_neg h0']
      rcases hl : list_streaming_avatars listO with el | avs
      · rfl
      · dsimp only
        by_cases htr : avs.truthy
        · simp only [htr, Bool.not_true, Bool.false_eq_true, if_false]
          rcases hz : pyIndexZero avs with m | first
          · rfl
          · dsimp only
            rcases hga : pyGet first "avatar_id" with m | aOpt
            · rfl
            · dsimp only
              rcases hgi : pyGet first "id" with m | iOpt
              · rfl
              · dsimp only
                by_cases hj : optJTruthy (pyOrJ aOpt iOpt) = true
                · rw [if_pos hj]
                · rw [if_neg hj]
        · simp only [Bool.not_eq_true] at htr
          simp [htr]
    · intro hE
      unfold resolve_avatar_and_voice
      rw [if_neg h0', hE]
      rfl
    · intro x xs aOpt iOpt hL hga hgi
      constructor
      · intro hj
        unfold resolve_avatar_and_voice
        rw [if_neg h0', hL]
        simp [pyIndexZero, JVal.truthy, hga, hgi, hj]
      · intro hj
        unfold resolve_avatar_and_voice
        rw [if_neg h0', hL]
        simp [pyIndexZero, JVal.truthy, hga, hgi, hj]


/-- Witness for C1: a request override beats a configured language
    entry, and the voice comes from the language entry. -/
theorem resolve_follows_precedence_witness :
    specFirst [some "req-a", some "lang-a", none] = some "req-a" ∧
    resolve_avatar_and_voice [("en", ⟨some "lang-a", some "lang-v"⟩)] "en" none none
        (some "req-a") none (.netFail "x") =
      (.ok (.str "req-a", some "lang-v"), 0) := by
  constructor
  · rfl
  · have h := (resolve_follows_precedence [("en", ⟨some "lang-a", some "lang-v"⟩)] "en"
        none none (some "req-a") none (.netFail "x")).1 "req-a" rfl
    simpa using h

/-- C8 (amended): each endpoint maps each Session Client failure kind
    to a fixed outward status with a constant detail string that never
    depends on the vendor payload: network errors give 503, quota gives
    429 on create_session and talk but 502 on stop (stop has no quota
    clause, src/main.py 428-437), every other HeyGen error gives 502,
    and unexpected Python errors give 500; the success responses of
    talk and stop forward the vendor's parsed JSON body verbatim. -/
theorem surface_status_fixed_by_kind :
    (∀ m, mapCreateError (.hg (.network m)) = .failed 503 networkDetail ∧
      mapTalkError (.hg (.network m)) = .httpError 503 networkDetail ∧
      mapStopError (.hg (.network m)) = .httpError 503 networkDetail) ∧
    (mapCreateError (.hg .quota) = .failed 429 quotaDetail ∧
      mapTalkError (.hg .quota) = .httpError 429 quotaDetail ∧
      mapStopError (.hg .quota) = .httpError 502 backendDetail) ∧
    (∀ e : HeyGenError, e ≠ .quota → (∀ m, e ≠ .network m) →
      mapCreateError (.hg e) = .failed 502 backendDetail ∧
      mapTalkError (.hg e) = .httpError 502 backendDetail ∧
      mapStopError (.hg e) = .httpError 502 backendDetail) ∧
    (∀ m, mapCreateError (.py m) = .failed 500 internalDetail ∧
      mapTalkError (.py m) = .httpError 500 internalDetail ∧
      mapStopError (.py m) = .httpError 500 internalDetail) ∧
    (∀ st sid text o tok body, regGet st (.str sid) = some tok → tok.truthy = true →
      pyBlank text = false → transportCall o = .ok body →
      (talk st sid text o).result = .ok body) ∧
    (∀ st sid o tok body, regGet st (.str sid) = some tok → tok.truthy = true →
      transportCall o = .ok body →
      (stop st sid o).result = .ok body) := by
  refine ⟨fun m => ⟨rfl, rfl, rfl⟩, ⟨rfl, rfl, rfl⟩, ?_, fun m => ⟨rfl, rfl, rfl⟩, ?_, ?_⟩
  · intro e h1 h2
    cases e with
    | quota => exact absurd rfl h1
    | network m => exact absurd rfl (h2 m)
    | nonJsonResp s t => exact ⟨rfl, rfl, rfl⟩
    | httpErr s b => exact ⟨rfl, rfl, rfl⟩
    | noToken => exact ⟨rfl, rfl, rfl⟩
    | newSessionFailed b => exact ⟨rfl, rfl, rfl⟩
    | avatarRequired => exact ⟨rfl, rfl, rfl⟩
    | sessionIdRequired => exact ⟨rfl, rfl, rfl⟩
    | emptyText => exact ⟨rfl, rfl, rfl⟩
    | noAvatars => exact ⟨rfl, rfl, rfl⟩
    | noAvatarId => exact ⟨rfl, rfl, rfl⟩
  · intro st sid text o tok body hget htr hblank hok
    unfold talk
    rw [hget]
    simp only [optJTruthy, htr, Bool.not_true, Bool.false_eq_true, if_false]
    simp only [hblank, Bool.false_eq_true, if_false]
    simp [send_task, hblank, hok, liftHg]
  · intro st sid o tok body hget htr hok
    unfold stop
    rw [hget]
    simp only [optJTruthy, htr, Bool.not_true, Bool.false_eq_true, if_false]
    simp [stop_session, hok, liftHg]

/-- Witness for C8's amended mapping at concrete kinds and a concrete
    forwarded body. -/
theorem surface_status_fixed_by_kind_witness :
    mapTalkError (.hg .quota) = .httpError 429 quotaDetail ∧
    mapStopError (.hg .quota) = .httpError 502 backendDetail ∧
    mapTalkError (.hg .noToken) = .httpError 502 backendDetail ∧
    (talk [(.str "s1", .str "t1")] "s1" "hi" (.resp (.json 200 .null))).result = .ok .null :=
  ⟨surface_status_fixed_by_kind.2.1.2.1,
   surface_status_fixed_by_kind.2.1.2.2,
   (surface_status_fixed_by_kind.2.2.1 .noToken (by simp) (fun m => by simp)).2.1,
   surface_status_fixed_by_kind.2.2.2.2.1 [(.str "s1", .str "t1")] "s1" "hi"
     (.resp (.json 200 .null)) (.str "t1") .null rfl rfl rfl rfl⟩

/-- Counterexample for C8 as stated: the same QuotaExceeded failure
    kind maps to 429 on talk but 502 on stop, so the outward status is
    not determined by the failure kind alone; and a successful talk
    response is exactly the vendor's payload. -/
theorem surface_mapping_counterexample :
    (talk [(.str "s1", .str "t1")] "s1" "hi"
      (.resp (.json 400 (.obj [("code", .num 10008)])))).result = .httpError 429 quotaDetail ∧
    (stop [(.str "s1", .str "t1")] "s1"
      (.resp (.json 400 (.obj [("code", .num 10008)])))).result = .httpError 502 backendDetail ∧
    (429 : Nat) ≠ 502 ∧
    (talk [(.str "s1", .str "t1")] "s1" "hi"
      (.resp (.json 200 (.obj [("vendor", .str "payload")])))).result =
      .ok (.obj [("vendor", .str "payload")]) :=
  ⟨rfl, rfl, by decide, rfl⟩

/-- C9 (amended): a NetworkUnavailable failure leaves the registry
    unchanged in create_session (whichever of its vendor calls failed,
    including a failed resolution), and talk never changes the
    registry; the stop endpoint, however, always removes the entry,
    network failure included (src/main.py 439: sessions.pop in the
    finally block). -/
theorem network_failure_frame :
    (∀ lm dl ga gv ra rv st o e,
      (resolve_avatar_and_voice lm dl ga gv ra rv (CreateOracle.listO o)).1 = .error e →
      (create_session lm dl ga gv ra rv st o).2 = st) ∧
    (∀ lm dl ga gv ra rv st o m, CreateOracle.tokenO o = .netFail m →
      (create_session lm dl ga gv ra rv st o).2 = st) ∧
    (∀ lm dl ga gv ra rv st o m, CreateOracle.newO o = .netFail m →
      (create_session lm dl ga gv ra rv st o).2 = st) ∧
    (∀ lm dl ga gv ra rv st o m, CreateOracle.startO o = .netFail m →
      (create_session lm dl ga gv ra rv st o).2 = st) ∧
    (∀ st sid text o, (talk st sid text o).state = st) ∧
    (∀ st sid m tok, regGet st (.str sid) = some tok → tok.truthy = true →
      (stop st sid (.netFail m)).state = regPop st (.str sid)) := by
  refine ⟨?_, ?_, ?_, ?_, ?_, ?_⟩
  · intro lm dl ga gv ra rv st o e he
    unfold create_session
    rw [he]
  · intro lm dl ga gv ra rv st o m hm
    unfold create_session
    rcases hres : (resolve_avatar_and_voice lm dl ga gv ra rv o.listO).1 with e | ⟨av, vo⟩
    · rfl
    · dsimp only
      rw [show create_session_token o.tokenO = .error (.hg (.network ("HeyGen API unreachable: " ++ m)))
          from by rw [hm]; rfl]
  · intro lm dl ga gv ra rv st o m hm
    unfold create_session
    rcases hres : (resolve_avatar_and_voice lm dl ga gv ra rv o.listO).1 with e | ⟨av, vo⟩
    · rfl
    · dsimp only
      rcases htok : create_session_token o.tokenO with e | t
      · rfl
      · dsimp only
        unfold new_session
        by_cases htr : av.truthy
        · simp only [htr, Bool.not_true, Bool.false_eq_true, if_false]
          rw [hm]
          rfl
        · simp only [Bool.not_eq_true] at htr
          simp [htr]
  · intro lm dl ga gv ra rv st o m hm
    unfold create_session
    rcases hres : (resolve_avatar_and_voice lm dl ga gv ra rv o.listO).1 with e | ⟨av, vo⟩
    · rfl
    · dsimp only
      rcases htok : create_session_token o.tokenO with e | t
      · rfl
      · dsimp only
        rcases hnew : new_session av vo o.newO with e | info
        · rfl
        · dsimp only
          rcases hsid : pyIndexKey info "session_id" with e | sid
          · rfl
          · dsimp only
            unfold start_session
            by_cases hstr : sid.truthy
            · simp only [hstr, Bool.not_true, Bool.false_eq_true, if_false]
              rw [hm]
              rfl
            · simp only [Bool.not_eq_true] at hstr
              simp [hstr]
  · intro st sid text o
    unfold talk
    by_cases h0 : optJTruthy (regGet st (.str sid)) = true
    · simp only [h0, Bool.not_true, Bool.false_eq_true, if_false]
      by_cases hb : pyBlank text
      · simp [hb]
      · simp only [Bool.not_eq_true] at hb
        simp only [hb, Bool.false_eq_true, if_false]
        rcases hs : send_task text o with ⟨r, n⟩
        cases r <;> simp [hs]
    · simp only [Bool.not_eq_true] at h0
      simp [h0]
  · intro st sid m tok hget htr
    unfold stop
    rw [hget]
    simp only [optJTruthy, htr, Bool.not_true, Bool.false_eq_true, if_false]
    rfl

/-- Witness for C9's amended frame conditions at concrete states. -/
theorem network_failure_frame_witness :
    (create_session [] "en" (some "g1") none none none [(.str "s0", .str "t0")]
      ⟨.netFail "a", .netFail "timeout", .netFail "b", .netFail "c"⟩).2 =
      [(.str "s0", .str "t0")] ∧
    (talk [(.str "s0", .str "t0")] "s0" "hi" (.netFail "timeout")).state =
      [(.str "s0", .str "t0")] ∧
    (stop [(.str "s0", .str "t0")] "s0" (.netFail "timeout")).state =
      regPop [(.str "s0", .str "t0")] (.str "s0") :=
  ⟨network_failure_frame.2.1 [] "en" (some "g1") none none none [(.str "s0", .str "t0")]
     ⟨.netFail "a", .netFail "timeout", .netFail "b", .netFail "c"⟩ "timeout" rfl,
   network_failure_frame.2.2.2.2.1 [(.str "s0", .str "t0")] "s0" "hi" (.netFail "timeout"),
   network_failure_frame.2.2.2.2.2 [(.str "s0", .str "t0")] "s0" "timeout" (.str "t0") rfl rfl⟩

/-- Counterexample for C9 as stated: a stop whose vendor call times
    out (NetworkUnavailable, 503) still removes the session's registry
    entry, so the registry is not left unchanged by every timed-out
    call. -/
theorem stop_network_changes_registry_counterexample :
    (stop [(.str "s1", .str "t1")] "s1" (.netFail "timed out")).result =
      .httpError 503 networkDetail ∧
    (stop [(.str "s1", .str "t1")] "s1" (.netFail "timed out")).state = [] ∧
    regGet [(.str "s1", .str "t1")] (.str "s1") = some (.str "t1") :=
  ⟨rfl, rfl, rfl⟩

end AvatarService
